import Mathlib

/-!
Verification of the alpaca-py real-time data streaming core.

The repository ships a resilient WebSocket streaming client
(`alpaca.data.live.*`, built on an internal `DataStream` base class) whose
behaviour is described by the specification: a subscription registry with a
desired/confirmed split, a connection state machine with reconnect and fatal
auth failure, a message codec, an ordered per-channel dispatcher with handler
isolation, and a reconciliation engine that diffs desired against confirmed
subscriptions.  The Python modules implementing that core are not part of the
source snapshot (only documentation, READMEs and examples are), so the
streaming core is modelled here from the specification, and the public
constructor surface of the stream clients is modelled from the shipped
documentation (`docs/market_data.rst`, `README.md`).
-/

namespace Alpaca

/-- Channel tags of the streaming feeds, per the data model:
trades, quotes, bars, updatedBars, dailyBars, statuses, lulds,
orderbooks, tradeUpdates. -/
inductive Channel where
  | trades
  | quotes
  | bars
  | updatedBars
  | dailyBars
  | statuses
  | lulds
  | orderbooks
  | tradeUpdates
deriving DecidableEq, Repr

/-- A subscription key is a (channel, symbol) pair; the symbol is a free-form
string (possibly the sentinel "*"). -/
structure SubscriptionKey where
  channel : Channel
  symbol : String
deriving DecidableEq, Repr

/-- Modelled from the spec: the Reconciliation Engine's pure diff
`reconcile(desired, confirmed) = (desired − confirmed, confirmed − desired)`
(the implementing Python module is absent from the snapshot). -/
def reconcile (desired confirmed : Finset SubscriptionKey) :
    Finset SubscriptionKey × Finset SubscriptionKey :=
  (desired \ confirmed, confirmed \ desired)

/-- Modelled from the spec: the Subscription Registry operation
`add(keys)`, a pure set union into DesiredSubscriptionSet
(the implementing Python module is absent from the snapshot). -/
def Registry.add (desired keys : Finset SubscriptionKey) :
    Finset SubscriptionKey :=
  desired ∪ keys

/-- Modelled from the spec: the Subscription Registry operation
`remove(keys)`, a pure set difference on DesiredSubscriptionSet; removing
absent keys is a no-op and never errors
(the implementing Python module is absent from the snapshot). -/
def Registry.remove (desired keys : Finset SubscriptionKey) :
    Finset SubscriptionKey :=
  desired \ keys

/-- Decoded domain events, per the data model's tagged union
{Trade, Quote, Bar, TradeUpdate, StatusMessage, ErrorMessage}.  Prices and
sizes are fixed-precision decimals, modelled as scaled integers. -/
inductive Event where
  | trade (symbol : String) (timestamp : Nat) (price size : Int)
  | quote (symbol : String) (timestamp : Nat) (bidPrice askPrice : Int)
  | bar (symbol : String) (timestamp : Nat) (o h l c v : Int)
  | tradeUpdate (symbol : String) (timestamp : Nat)
  | statusMessage (tag : String) (symbol : String) (timestamp : Nat)
  | errorMessage (code : Nat) (msg : String)
deriving DecidableEq, Repr

/-- The channel an event is dispatched on. -/
def Event.channel : Event → Channel
  | Event.trade _ _ _ _ => Channel.trades
  | Event.quote _ _ _ _ => Channel.quotes
  | Event.bar _ _ _ _ _ _ _ => Channel.bars
  | Event.tradeUpdate _ _ => Channel.tradeUpdates
  | Event.statusMessage _ _ _ => Channel.statuses
  | Event.errorMessage _ _ => Channel.statuses

/-- The HandlerTable: each channel maps to the ids of its registered
callbacks, in registration order. -/
def HandlerTable : Type := Channel → List Nat

/-- Modelled from the spec: `onEvent(channel, handler)` of the caller API —
registers one more callback on a channel, appended after those already
registered (the implementing Python module is absent from the snapshot). -/
def onEvent (tbl : HandlerTable) (c : Channel) (h : Nat) : HandlerTable :=
  fun c' => if c' = c then tbl c' ++ [h] else tbl c'

/-- The callbacks invoked when one event is dispatched, in order. -/
def invokedIds (tbl : HandlerTable) (e : Event) : List Nat :=
  tbl e.channel

/-- Modelled from the spec: the Dispatcher's invocation log over a queue of
inbound events — for each event in arrival order, each handler registered on
the event's channel is invoked in registration order (the implementing
Python module is absent from the snapshot). -/
def dispatchLog (tbl : HandlerTable) (evs : List Event) : List (Nat × Event) :=
  evs.flatMap fun e => (tbl e.channel).map fun h => (h, e)

/-- The subsequence of events delivered to one handler id. -/
def deliveredTo (tbl : HandlerTable) (evs : List Event) (h : Nat) :
    List Event :=
  (dispatchLog tbl evs).filterMap fun p =>
    if p.1 = h then some p.2 else none

/-- Projecting one handler's deliveries out of one event's invocations. -/
theorem filterMap_invocations (l : List Nat) (h : Nat) (e : Event) :
    (l.filterMap fun g => if g = h then some e else none) =
      List.replicate (l.count h) e := by
  induction l with
  | nil => rfl
  | cons g l ih =>
      by_cases hg : g = h
      · simp [List.filterMap_cons, hg, List.count_cons, ih,
          List.replicate_succ]
      · simp [List.filterMap_cons, hg, List.count_cons, ih,
          Ne.symm hg]

/-- A user-supplied callback: an id plus the events on which the callback
body raises an exception. -/
structure Handler where
  hid : Nat
  raises : Event → Bool

/-- Modelled from the spec: invoking one user callback on one event — the
call either returns normally or raises (the implementing Python module is
absent from the snapshot). -/
def invokeHandler (h : Handler) (e : Event) : Except String Unit :=
  if h.raises e then Except.error "handler exception" else Except.ok ()

/-- Whether an invocation outcome was a raised exception. -/
def raisedFlag (r : Except String Unit) : Bool :=
  match r with
  | Except.ok _ => false
  | Except.error _ => true

/-- Modelled from the spec: the Dispatcher delivers one event to every
registered handler in order, invoking each inside a try/except — a raised
exception is caught and recorded (reported to the error log), and dispatch
continues with the next handler (the implementing Python module is absent
from the snapshot). -/
def dispatchEvent : List Handler → Event → List (Nat × Bool)
  | [], _ => []
  | h :: rest, e =>
      (h.hid, raisedFlag (invokeHandler h e)) :: dispatchEvent rest e

/-- Modelled from the spec: the read loop dispatches the queued events one
after another; a handler exception never stops the loop (the implementing
Python module is absent from the snapshot). -/
def dispatchQueue (hs : List Handler) (evs : List Event) :
    List (Nat × Bool) :=
  evs.flatMap fun e => dispatchEvent hs e

/-- A handler whose body always raises. -/
def throwingHandler : Handler := ⟨1, fun _ => true⟩

/-- A handler whose body never raises. -/
def quietHandler : Handler := ⟨2, fun _ => false⟩

/-- Four synthetic trade frames for symbols A, B, A, C in that order. -/
def sampleFrames : List Event :=
  [Event.trade "A" 1 100 1, Event.trade "B" 2 100 1,
   Event.trade "A" 3 101 2, Event.trade "C" 4 99 5]

/-- A handler table with the single callback 7 on the trades channel. -/
def tradesOnlyTable : HandlerTable :=
  fun c => if c = Channel.trades then [7] else []

/-- Connection states of the Connection Manager:
Disconnected, Connecting, Authenticating, Subscribing, Ready, Reconnecting,
Closed. -/
inductive ConnState where
  | disconnected
  | connecting
  | authenticating
  | subscribing
  | ready
  | reconnecting
  | closed
deriving DecidableEq, Repr

/-- Events driving the Connection Manager state machine. -/
inductive ConnEvent where
  | connectReq
  | transportOpen
  | transportError
  | authAckSuccess
  | authAckFailure
  | authTimeout
  | reconciliationSent
  | heartbeatTimeout
  | backoffElapsed
  | closeReq
deriving DecidableEq, Repr

/-- Modelled from the spec: the Connection Manager state machine
(the implementing Python module is absent from the snapshot).
Transitions follow the specification's list; `closeReq` moves any state to
Closed, Closed is terminal, and events with no listed transition from the
current state leave the state unchanged. -/
def stepConn : ConnState → ConnEvent → ConnState
  | _, ConnEvent.closeReq => ConnState.closed
  | ConnState.closed, _ => ConnState.closed
  | ConnState.disconnected, ConnEvent.connectReq => ConnState.connecting
  | ConnState.connecting, ConnEvent.transportOpen => ConnState.authenticating
  | ConnState.connecting, ConnEvent.transportError => ConnState.reconnecting
  | ConnState.authenticating, ConnEvent.authAckSuccess => ConnState.subscribing
  | ConnState.authenticating, ConnEvent.authAckFailure => ConnState.closed
  | ConnState.authenticating, ConnEvent.authTimeout => ConnState.closed
  | ConnState.subscribing, ConnEvent.reconciliationSent => ConnState.ready
  | ConnState.ready, ConnEvent.transportError => ConnState.reconnecting
  | ConnState.ready, ConnEvent.heartbeatTimeout => ConnState.reconnecting
  | ConnState.reconnecting, ConnEvent.backoffElapsed => ConnState.connecting
  | s, _ => s

/-- Overall client state: connection state plus the two subscription sets. -/
structure ClientState where
  conn : ConnState
  desired : Finset SubscriptionKey
  confirmed : Finset SubscriptionKey
deriving DecidableEq

/-- Modelled from the spec: the client-level transition for connection events
(the implementing Python module is absent from the snapshot).  On entering
Reconnecting the ConfirmedSubscriptionSet is cleared; DesiredSubscriptionSet
is never touched by connection events. -/
def stepClient (s : ClientState) (e : ConnEvent) : ClientState :=
  let c := stepConn s.conn e
  { conn := c
    desired := s.desired
    confirmed :=
      if s.conn ≠ ConnState.reconnecting ∧ c = ConnState.reconnecting then ∅
      else s.confirmed }

/-- A raw inbound wire frame: whether the frame parses at all, its
message-type tag, and its payload fields. -/
structure RawFrame where
  wellFormed : Bool
  tag : String
  symbol : String
  timestamp : Nat
  price : Int
  size : Int
deriving DecidableEq, Repr

/-- A local decoding failure; never affects the connection. -/
structure DecodeError where
  reason : String
deriving DecidableEq, Repr

/-- The message-type tags the codec recognises. -/
def knownTags : List String := ["t", "q", "b", "tu", "s", "e"]

/-- Modelled from the spec: the Message Codec's
`decode(rawFrame) -> Result<Event, DecodeError>` — pure and total; a
malformed frame yields a DecodeError value, a well-formed frame with an
unknown tag decodes to a generic StatusMessage
(the implementing Python module is absent from the snapshot). -/
def decode (f : RawFrame) : Except DecodeError Event :=
  if f.wellFormed then
    Except.ok
      (if f.tag = "t" then Event.trade f.symbol f.timestamp f.price f.size
      else if f.tag = "q" then
        Event.quote f.symbol f.timestamp f.price f.size
      else if f.tag = "b" then
        Event.bar f.symbol f.timestamp f.price f.price f.price f.price f.size
      else if f.tag = "tu" then Event.tradeUpdate f.symbol f.timestamp
      else if f.tag = "s" then
        Event.statusMessage f.tag f.symbol f.timestamp
      else if f.tag = "e" then Event.errorMessage f.timestamp f.symbol
      else Event.statusMessage f.tag f.symbol f.timestamp)
  else Except.error ⟨"malformed frame"⟩

/-- Modelled from the spec: the read loop's handling of one raw frame — a
frame that decodes is turned into an event for dispatch; a DecodeError is
logged and the connection state is left unchanged, processing continuing
with the next frame (the implementing Python module is absent from the
snapshot). -/
def processFrame (s : ClientState) (f : RawFrame) :
    ClientState × Option Event :=
  match decode f with
  | Except.error _ => (s, none)
  | Except.ok e => (s, some e)

/-- Modelled from the spec: handling of a SubscriptionError ack naming the
rejected keys — the rejected keys are reported through the error callback,
dropped from ConfirmedSubscriptionSet (they were never acknowledged), and
DesiredSubscriptionSet is not mutated (the implementing Python module is
absent from the snapshot). -/
def onSubscriptionError (s : ClientState)
    (rejected : Finset SubscriptionKey) :
    ClientState × Finset SubscriptionKey :=
  ({ s with confirmed := s.confirmed \ rejected }, rejected)

/-- A crypto data stream client, with optional credentials. -/
structure CryptoDataStream where
  api_key : Option String
  secret_key : Option String
deriving DecidableEq, Repr

/-- A stock data stream client; credentials are required. -/
structure StockDataStream where
  api_key : String
  secret_key : String
deriving DecidableEq, Repr

/-- Modelled from the spec: the public constructor of `CryptoDataStream`,
whose implementing Python module is absent from the snapshot; per
`docs/market_data.rst` ("no keys required. crypto_stream =
CryptoDataStream()") both credential arguments are optional and
construction always succeeds. -/
def constructCryptoDataStream (api_key secret_key : Option String) :
    Option CryptoDataStream :=
  some ⟨api_key, secret_key⟩

/-- Modelled from the spec: the public constructor of `StockDataStream`,
whose implementing Python module is absent from the snapshot; per
`docs/market_data.rst` ("keys required") it takes an API key and secret. -/
def constructStockDataStream (api_key secret_key : String) :
    StockDataStream :=
  ⟨api_key, secret_key⟩

/-- Closed absorbs every event. -/
theorem stepConn_closed (e : ConnEvent) :
    stepConn ConnState.closed e = ConnState.closed := by
  cases e <;> rfl

/-- Closed absorbs every event trace. -/
theorem foldl_stepConn_closed (es : List ConnEvent) :
    es.foldl stepConn ConnState.closed = ConnState.closed := by
  induction es with
  | nil => rfl
  | cons e es ih => simpa [List.foldl, stepConn_closed] using ih

/-- C1: `reconcile(D, C)` returns exactly `(D − C, C − D)`; with `C = ∅` it
returns `(D, ∅)`; and after applying the result and setting `C := D`, a second
call returns `(∅, ∅)`. -/
theorem reconcile_correct (D C : Finset SubscriptionKey) :
    reconcile D C = (D \ C, C \ D) ∧
    reconcile D ∅ = (D, ∅) ∧
    reconcile D D = (∅, ∅) := by
  refine ⟨rfl, ?_, ?_⟩
  · simp [reconcile]
  · simp [reconcile]

/-- C4: for every registry state S and key k, adding k twice yields the same
desired set as adding it once (also when k is already desired), and removing
k from a registry state T that does not contain k returns normally with the
desired set unchanged. -/
theorem registry_add_idem_remove_noop (S T : Finset SubscriptionKey)
    (k : SubscriptionKey) (h : k ∉ T) :
    Registry.add (Registry.add S {k}) {k} = Registry.add S {k} ∧
    Registry.remove T {k} = T := by
  constructor
  · simp [Registry.add, Finset.union_assoc]
  · simp [Registry.remove, Finset.sdiff_eq_self_iff_disjoint,
      Finset.disjoint_singleton_right, h]

/-- C2: from Authenticating, auth_ack_failure and auth timeout both go to
Closed; Closed is terminal under every event trace; hence no state reachable
after an auth failure is Connecting or Reconnecting. -/
theorem auth_failure_terminal :
    stepConn ConnState.authenticating ConnEvent.authAckFailure =
      ConnState.closed ∧
    stepConn ConnState.authenticating ConnEvent.authTimeout =
      ConnState.closed ∧
    (∀ es : List ConnEvent,
      es.foldl stepConn ConnState.closed = ConnState.closed) ∧
    (∀ es : List ConnEvent,
      es.foldl stepConn
          (stepConn ConnState.authenticating ConnEvent.authAckFailure) ≠
        ConnState.connecting ∧
      es.foldl stepConn
          (stepConn ConnState.authenticating ConnEvent.authAckFailure) ≠
        ConnState.reconnecting) := by
  refine ⟨rfl, rfl, foldl_stepConn_closed, fun es => ?_⟩
  have h : es.foldl stepConn
      (stepConn ConnState.authenticating ConnEvent.authAckFailure) =
      ConnState.closed := foldl_stepConn_closed es
  rw [h]
  exact ⟨by decide, by decide⟩

/-- C3: a transition into Reconnecting clears ConfirmedSubscriptionSet and
leaves DesiredSubscriptionSet unchanged. -/
theorem reconnecting_clears_confirmed (s : ClientState) (e : ConnEvent)
    (h1 : s.conn ≠ ConnState.reconnecting)
    (h2 : (stepClient s e).conn = ConnState.reconnecting) :
    (stepClient s e).confirmed = ∅ ∧ (stepClient s e).desired = s.desired := by
  refine ⟨?_, rfl⟩
  have hc : stepConn s.conn e = ConnState.reconnecting := h2
  simp [stepClient, hc, h1]

/-- Witness for C3: a Ready client hit by a transport error enters
Reconnecting with an empty confirmed set and an unchanged desired set. -/
theorem reconnecting_clears_confirmed_witness :
    (let s : ClientState :=
      { conn := ConnState.ready
        desired := {⟨Channel.trades, "AAPL"⟩}
        confirmed := {⟨Channel.trades, "AAPL"⟩} }
    s.conn ≠ ConnState.reconnecting ∧
    (stepClient s ConnEvent.transportError).conn = ConnState.reconnecting ∧
    ((stepClient s ConnEvent.transportError).confirmed = ∅ ∧
      (stepClient s ConnEvent.transportError).desired = s.desired)) :=
  ⟨by decide, rfl,
    reconnecting_clears_confirmed _ ConnEvent.transportError (by decide) rfl⟩

/-- Witness for C4: the add-idempotence conjunct is exercised on a registry
that already desires the key (the already-desired no-op case), and the
remove conjunct on a registry not containing the key. -/
theorem registry_add_idem_remove_noop_witness :
    (⟨Channel.trades, "AAPL"⟩ : SubscriptionKey) ∉
      ({⟨Channel.quotes, "SPY"⟩} : Finset SubscriptionKey) ∧
    (Registry.add (Registry.add {⟨Channel.trades, "AAPL"⟩}
        {⟨Channel.trades, "AAPL"⟩}) {⟨Channel.trades, "AAPL"⟩} =
      Registry.add {⟨Channel.trades, "AAPL"⟩} {⟨Channel.trades, "AAPL"⟩} ∧
    Registry.remove ({⟨Channel.quotes, "SPY"⟩} : Finset SubscriptionKey)
        {⟨Channel.trades, "AAPL"⟩} = {⟨Channel.quotes, "SPY"⟩}) :=
  ⟨by decide, registry_add_idem_remove_noop _ _ _ (by decide)⟩

/-- C5: for a handler registered exactly once on channel `c` and nowhere
else, the sequence of events the dispatcher delivers to it is exactly the
arrival sequence restricted to channel `c` — order is preserved and no
reordering occurs across channels or symbols. -/
theorem dispatch_order_preserved (tbl : HandlerTable) (h : Nat) (c : Channel)
    (hcount : ∀ c', (tbl c').count h = if c' = c then 1 else 0)
    (evs : List Event) :
    deliveredTo tbl evs h = evs.filter fun e => decide (e.channel = c) := by
  induction evs with
  | nil => rfl
  | cons e evs ih =>
      have hstep : deliveredTo tbl (e :: evs) h =
          List.replicate ((tbl e.channel).count h) e ++
            deliveredTo tbl evs h := by
        simp only [deliveredTo, dispatchLog, List.flatMap_cons,
          List.filterMap_append, List.filterMap_map, Function.comp]
        rw [show ((fun p : Nat × Event =>
            if p.1 = h then some p.2 else none) ∘ fun g => (g, e)) =
            fun g => if g = h then some e else none from rfl]
        rw [filterMap_invocations]
      rw [hstep, ih, hcount e.channel]
      by_cases hc : e.channel = c
      · simp [hc]
      · simp [hc]

/-- Witness for C5: the callback on the trades channel receives the four
synthetic frames for symbols A, B, A, C exactly in arrival order. -/
theorem dispatch_order_preserved_witness :
    (∀ c', (tradesOnlyTable c').count 7 =
      if c' = Channel.trades then 1 else 0) ∧
    deliveredTo tradesOnlyTable sampleFrames 7 = sampleFrames := by
  have hcount : ∀ c', (tradesOnlyTable c').count 7 =
      if c' = Channel.trades then 1 else 0 := by
    intro c'
    cases c' <;> rfl
  refine ⟨hcount, ?_⟩
  rw [dispatch_order_preserved tradesOnlyTable 7 Channel.trades hcount
    sampleFrames]
  rfl

/-- C6: decode is total — every frame yields an Event or a DecodeError
value; a well-formed frame with an unknown message-type tag decodes to a
StatusMessage, not a DecodeError; and a DecodeError leaves the connection
state unchanged. -/
theorem decode_total_unknown_tag_local (f : RawFrame) :
    ((∃ e, decode f = Except.ok e) ∨
      (∃ err, decode f = Except.error err)) ∧
    (f.wellFormed = true → f.tag ∉ knownTags →
      decode f = Except.ok
        (Event.statusMessage f.tag f.symbol f.timestamp)) ∧
    (∀ s err, decode f = Except.error err → (processFrame s f).1 = s) := by
  refine ⟨?_, ?_, ?_⟩
  · cases hd : decode f with
    | ok e => exact Or.inl ⟨e, rfl⟩
    | error err => exact Or.inr ⟨err, rfl⟩
  · intro hwf htag
    simp only [knownTags, List.mem_cons, List.not_mem_nil, or_false,
      not_or] at htag
    obtain ⟨h1, h2, h3, h4, h5, h6⟩ := htag
    simp [decode, hwf, h1, h2, h3, h4, h5, h6]
  · intro s err hd
    simp [processFrame, hd]

/-- Witness for C6: a well-formed frame with the unknown tag "corrections"
decodes to a StatusMessage, and a malformed frame yields a DecodeError that
leaves a Ready client state unchanged. -/
theorem decode_total_unknown_tag_local_witness :
    (let f : RawFrame :=
      { wellFormed := true, tag := "corrections", symbol := "AAPL",
        timestamp := 5, price := 100, size := 1 }
    f.wellFormed = true ∧ f.tag ∉ knownTags ∧
      decode f = Except.ok
        (Event.statusMessage f.tag f.symbol f.timestamp)) ∧
    (let g : RawFrame :=
      { wellFormed := false, tag := "t", symbol := "AAPL",
        timestamp := 5, price := 100, size := 1 }
    let s : ClientState :=
      { conn := ConnState.ready, desired := ∅, confirmed := ∅ }
    decode g = Except.error ⟨"malformed frame"⟩ ∧
      (processFrame s g).1 = s) := by
  refine ⟨⟨rfl, by decide, ?_⟩, rfl, ?_⟩
  · exact (decode_total_unknown_tag_local _).2.1 rfl (by decide)
  · exact (decode_total_unknown_tag_local _).2.2 _ _ rfl

/-- C7: when the first handler raises on an event, the exception is caught
and recorded rather than propagated, every later-registered handler still
receives the event, and the dispatcher proceeds to the next queued event. -/
theorem handler_isolation (h1 : Handler) (rest : List Handler) (e : Event)
    (evs : List Event)
    (hraise : invokeHandler h1 e = Except.error "handler exception") :
    dispatchEvent (h1 :: rest) e =
      (h1.hid, true) :: dispatchEvent rest e ∧
    (dispatchEvent (h1 :: rest) e).map Prod.fst =
      (h1 :: rest).map Handler.hid ∧
    dispatchQueue (h1 :: rest) (e :: evs) =
      dispatchEvent (h1 :: rest) e ++ dispatchQueue (h1 :: rest) evs := by
  have hmap : ∀ (hs : List Handler) (ev : Event),
      (dispatchEvent hs ev).map Prod.fst = hs.map Handler.hid := by
    intro hs ev
    induction hs with
    | nil => rfl
    | cons h hs ih => simp [dispatchEvent, ih]
  refine ⟨?_, hmap _ _, ?_⟩
  · simp [dispatchEvent, hraise, raisedFlag]
  · simp [dispatchQueue]

/-- Witness for C7: with a throwing handler registered first and a quiet
handler second, dispatching a trade frame records the caught exception,
still invokes the quiet handler, and the queue moves on to the next frame. -/
theorem handler_isolation_witness :
    invokeHandler throwingHandler (Event.trade "A" 1 100 1) =
      Except.error "handler exception" ∧
    (dispatchEvent [throwingHandler, quietHandler] (Event.trade "A" 1 100 1) =
      (throwingHandler.hid, true) ::
        dispatchEvent [quietHandler] (Event.trade "A" 1 100 1) ∧
    (dispatchEvent [throwingHandler, quietHandler]
        (Event.trade "A" 1 100 1)).map Prod.fst =
      [throwingHandler, quietHandler].map Handler.hid ∧
    dispatchQueue [throwingHandler, quietHandler]
        [Event.trade "A" 1 100 1, Event.trade "B" 2 100 1] =
      dispatchEvent [throwingHandler, quietHandler]
          (Event.trade "A" 1 100 1) ++
        dispatchQueue [throwingHandler, quietHandler]
          [Event.trade "B" 2 100 1]) :=
  ⟨rfl, handler_isolation throwingHandler [quietHandler]
    (Event.trade "A" 1 100 1) [Event.trade "B" 2 100 1] rfl⟩

/-- C8: when the server rejects the subset R of requested keys, R is
reported through the error callback, confirmed subscriptions outside R are
unchanged, and every key of R stays in DesiredSubscriptionSet — the error
path never mutates caller intent. -/
theorem subscription_error_preserves_intent (s : ClientState)
    (R : Finset SubscriptionKey) (hR : R ⊆ s.desired) :
    (onSubscriptionError s R).2 = R ∧
    (∀ k, k ∉ R →
      (k ∈ (onSubscriptionError s R).1.confirmed ↔ k ∈ s.confirmed)) ∧
    (onSubscriptionError s R).1.desired = s.desired ∧
    R ⊆ (onSubscriptionError s R).1.desired := by
  refine ⟨rfl, ?_, rfl, hR⟩
  intro k hk
  simp [onSubscriptionError, hk]

/-- Witness for C8: a Ready client with desired {trades AAPL, trades MSFT}
and confirmed {trades AAPL} receiving a rejection of {trades MSFT}. -/
theorem subscription_error_preserves_intent_witness :
    (let s : ClientState :=
      { conn := ConnState.ready
        desired := {⟨Channel.trades, "AAPL"⟩, ⟨Channel.trades, "MSFT"⟩}
        confirmed := {⟨Channel.trades, "AAPL"⟩} }
    let R : Finset SubscriptionKey := {⟨Channel.trades, "MSFT"⟩}
    R ⊆ s.desired ∧
    ((onSubscriptionError s R).2 = R ∧
      (∀ k, k ∉ R →
        (k ∈ (onSubscriptionError s R).1.confirmed ↔ k ∈ s.confirmed)) ∧
      (onSubscriptionError s R).1.desired = s.desired ∧
      R ⊆ (onSubscriptionError s R).1.desired)) :=
  ⟨by decide, subscription_error_preserves_intent _ _ (by decide)⟩

/-- C9: registering a second handler on a channel does not replace the
first — dispatching an event of that channel invokes the previously
registered handlers and then both new ones, in registration order. -/
theorem multiple_handlers_per_channel (tbl : HandlerTable) (c : Channel)
    (h1 h2 : Nat) (e : Event) (hc : e.channel = c) :
    invokedIds (onEvent (onEvent tbl c h1) c h2) e =
      invokedIds tbl e ++ [h1, h2] := by
  simp [invokedIds, onEvent, hc]

/-- Witness for C9: registering callbacks 1 and 2 on the trades channel of
the table that already holds callback 7 makes a trade event invoke 7, 1, 2
in that order. -/
theorem multiple_handlers_per_channel_witness :
    (Event.trade "A" 1 100 1).channel = Channel.trades ∧
    invokedIds (onEvent (onEvent tradesOnlyTable Channel.trades 1)
        Channel.trades 2) (Event.trade "A" 1 100 1) = [7, 1, 2] := by
  refine ⟨rfl, ?_⟩
  rw [multiple_handlers_per_channel tradesOnlyTable Channel.trades 1 2
    (Event.trade "A" 1 100 1) rfl]
  rfl

/-- C10: the crypto data stream client constructs successfully with no
credential arguments, while the stock data stream client is constructed
from an API key and secret — credentials are not required for every stream
client. -/
theorem crypto_stream_credentials_optional :
    (constructCryptoDataStream none none).isSome = true ∧
    constructCryptoDataStream none none = some ⟨none, none⟩ ∧
    constructStockDataStream "api-key" "secret-key" =
      ⟨"api-key", "secret-key"⟩ :=
  ⟨rfl, rfl, rfl⟩

end Alpaca
